import Mathlib

/-!
Verification of the movieboxkai front-end server (`src/server.js`).

The development shallowly embeds the JavaScript/Express code: JSON values
become the inductive `Json` (with JavaScript truthiness and a throwing
property access), the axios wrapper `apiCall` becomes a total function on an
upstream oracle, and every route handler becomes a Lean function from its
request parameters and the oracle to a `Response` together with the list of
upstream endpoints it fetched.  A handler body that can throw (JavaScript
`TypeError` on property access of `null`/`undefined`) is an `Except String`
computation, and the route-level `try/catch` is the surrounding `match`.
-/

namespace MovieBox

/-- JavaScript values as seen by this server: the parsed JSON body of an
upstream response, plus `undefined` (absent object property) and `NaN`
(result of a failed `parseInt`). -/
inductive Json where
  | undefined : Json
  | null : Json
  | bool : Bool → Json
  | num : Int → Json
  | nan : Json
  | str : String → Json
  | arr : List Json → Json
  | obj : List (String × Json) → Json

/-- JavaScript truthiness of a value (`if (x)`). -/
def Json.truthy : Json → Bool
  | .undefined => false
  | .null => false
  | .bool b => b
  | .num n => n != 0
  | .nan => false
  | .str s => !s.isEmpty
  | .arr _ => true
  | .obj _ => true

/-- Total property lookup: `undefined` when the key is absent or the value is
not an object (JavaScript property access on a primitive). -/
def Json.fieldD : Json → String → Json
  | .obj fs, k =>
    match fs.find? (fun p => p.1 == k) with
    | some p => p.2
    | none => .undefined
  | _, _ => .undefined

/-- JavaScript property access `x.k`: throws a `TypeError` when `x` is
`null` or `undefined`, otherwise yields `Json.fieldD`. -/
def Json.getField (j : Json) (k : String) : Except String Json :=
  match j with
  | .undefined => .error ("TypeError: Cannot read properties of undefined (reading " ++ k ++ ")")
  | .null => .error ("TypeError: Cannot read properties of null (reading " ++ k ++ ")")
  | _ => .ok (j.fieldD k)

/-- `null` or `undefined` (displayed as the empty string inside an array). -/
def Json.isNullish : Json → Bool
  | .null => true
  | .undefined => true
  | _ => false

/-- String conversion as performed inside a JavaScript template literal. -/
def Json.toDisplay : Json → String
  | .undefined => "undefined"
  | .null => "null"
  | .bool b => if b then "true" else "false"
  | .num n => toString n
  | .nan => "NaN"
  | .str s => s
  | .arr xs =>
    String.intercalate ","
      (xs.attach.map (fun v =>
        if v.1.isNullish then "" else Json.toDisplay v.1))
  | .obj _ => "[object Object]"
decreasing_by
  have h := List.sizeOf_lt_of_mem v.2
  simp only [Json.arr.sizeOf_spec]
  omega

/-- JavaScript `q || d` for an optional query-string value `q` (absent query
parameters are `undefined`, and the empty string is falsy). -/
def jsOrDefault (v : Option String) (d : String) : String :=
  match v with
  | none => d
  | some s => if s.isEmpty then d else s

/-- Truthiness of an optional query-string value (`if (!x)` guards). -/
def truthyStr (v : Option String) : Bool :=
  match v with
  | none => false
  | some s => !s.isEmpty

/-- JavaScript `parseInt` on a string: optional sign, then leading decimal
digits; `NaN` when no digit is found. -/
def parseIntJs (s : String) : Json :=
  let chars := s.toList.dropWhile Char.isWhitespace
  let signed : Bool × List Char :=
    match chars with
    | '-' :: r => (true, r)
    | '+' :: r => (false, r)
    | r => (false, r)
  let ds := signed.2.takeWhile Char.isDigit
  if ds.isEmpty then .nan
  else
    let mag : Nat := ds.foldl (fun a c => a * 10 + (c.toNat - 48)) 0
    .num (if signed.1 then -(mag : Int) else (mag : Int))

/-- One UTF-8 code unit sequence for a code point, as a list of byte values. -/
def utf8Bytes (n : Nat) : List Nat :=
  if n < 128 then [n]
  else if n < 2048 then [192 + n / 64, 128 + n % 64]
  else if n < 65536 then [224 + n / 4096, 128 + (n / 64) % 64, 128 + n % 64]
  else [240 + n / 262144, 128 + (n / 4096) % 64, 128 + (n / 64) % 64, 128 + n % 64]

/-- Upper-case hexadecimal digit. -/
def hexDigit (n : Nat) : Char :=
  if n < 10 then Char.ofNat (48 + n) else Char.ofNat (55 + n)

/-- `%XX` percent-escape of one byte. -/
def pctEncodeByte (b : Nat) : String :=
  String.mk ['%', hexDigit (b / 16), hexDigit (b % 16)]

/-- Characters `encodeURIComponent` leaves unescaped:
letters, digits, and `- _ . ! ~ * ( )` and the apostrophe. -/
def isURIUnreserved (c : Char) : Bool :=
  ('A' ≤ c && c ≤ 'Z') || ('a' ≤ c && c ≤ 'z') || ('0' ≤ c && c ≤ '9') ||
  c == '-' || c == '_' || c == '.' || c == '!' || c == '~' || c == '*' ||
  c == Char.ofNat 39 || c == '(' || c == ')'

/-- JavaScript `encodeURIComponent`: percent-encodes the UTF-8 bytes of every
character outside the unreserved set. -/
def encodeURIComponent (s : String) : String :=
  String.join (s.toList.map (fun c =>
    if isURIUnreserved c then String.singleton c
    else String.join ((utf8Bytes c.toNat).map pctEncodeByte)))

/-- `animeId.split('?')[0]` from the watch route: the part of the string
before the first question mark. -/
def beforeQuery (s : String) : String :=
  String.mk (s.toList.takeWhile (fun c => c ≠ '?'))

/-- `query.replace('-', ' ')` from the browse route: only the first
occurrence is replaced. -/
def replaceFirstDashAux : List Char → List Char
  | [] => []
  | c :: r => if c = '-' then ' ' :: r else c :: replaceFirstDashAux r

def replaceFirstDash (s : String) : String :=
  String.mk (replaceFirstDashAux s.toList)

/-- Outcome of one `axios.get` against the upstream API: a 2xx response with
a parsed JSON body, or a transport / non-2xx failure carrying
`error.message`. -/
inductive UpstreamResult where
  | ok : Json → UpstreamResult
  | fail : String → UpstreamResult

/-- The upstream API as an oracle from full request URLs to outcomes. -/
abbrev Upstream := String → UpstreamResult

def API_BASE_URL : String := "https://animekai-6wq1.onrender.com"

/-- The envelope `apiCall` synthesizes in its `catch` branch. -/
def failEnvelope (msg : String) : Json :=
  .obj [("success", .bool false), ("error", .str msg)]

/-- `apiCall(endpoint)`: GET `API_BASE_URL + endpoint`; return the body
verbatim on success, and the local failure envelope on any error. -/
def apiCall (up : Upstream) (endpoint : String) : Json :=
  match up (API_BASE_URL ++ endpoint) with
  | .ok body => body
  | .fail msg => failEnvelope msg

/-! Upstream endpoint paths, one definition per template literal in the
source. -/

def animeDetailEP (id : String) : String := "/api/v1/anime/" ++ id

def episodesEP (id : String) : String := "/api/v1/episodes/" ++ id

def serversEP (id : String) : String := "/api/v1/servers?id=" ++ id

def streamEP (server ty id : String) : String :=
  "/api/v1/stream?server=" ++ server ++ "&type=" ++ ty ++ "&id=" ++ id

def searchEP (keyword page : String) : String :=
  "/api/v1/search?keyword=" ++ encodeURIComponent keyword ++ "&page=" ++ page

def suggestionEP (keyword : String) : String :=
  "/api/v1/search/suggestion?keyword=" ++ encodeURIComponent keyword

def browseEP (query category page : String) : String :=
  (if category.isEmpty then "/api/v1/animes/" ++ query
   else "/api/v1/animes/" ++ query ++ "/" ++ category) ++ "?page=" ++ page

/-- The composite key `animeId::ep=episode` addressing server and stream
lookups on the watch route. -/
def serverKey (animeId episodeParam : String) : String :=
  animeId ++ "::ep=" ++ episodeParam

/-- What a handler sends back: an EJS render (template plus context) or a
JSON body, with its HTTP status. -/
inductive Response where
  | render : Nat → String → List (String × Json) → Response
  | json : Nat → Json → Response

def Response.template : Response → Option String
  | .render _ t _ => some t
  | .json _ _ => none

def Response.status : Response → Nat
  | .render s _ _ => s
  | .json s _ => s

def Response.ctx : Response → List (String × Json)
  | .render _ _ c => c
  | .json _ _ => []

def Response.jsonBody : Response → Option Json
  | .render _ _ _ => none
  | .json _ b => some b

/-- Lookup of one named value in a render context. -/
def lookupCtx (ctx : List (String × Json)) (k : String) : Option Json :=
  (ctx.find? (fun p => p.1 == k)).map Prod.snd

/-- A handler's observable behavior: its response and the list of upstream
endpoints it fetched (arguments of its `apiCall`s, in source order). -/
structure HandlerOut where
  response : Response
  calls : List String

/-- JavaScript `a && b` used as an `if` condition: `b` is evaluated (and may
throw) only when `a` is truthy. -/
def jsAndTruthy (a : Except String Json) (b : Unit → Except String Json) :
    Except String Bool :=
  match a with
  | .error e => .error e
  | .ok va => if va.truthy then (b ()).map Json.truthy else .ok false

/-- A route's generic error render (`res.render('error', ...)`, status 200). -/
def errorRender (msg : String) : Response :=
  .render 200 "error" [("message", .str msg), ("title", .str "Error")]

/-! ### Route handlers

Each HTML route body (`homeBody`, `animeBody`, ...) is the code inside the
route's `try`, an `Except String Response`; the corresponding handler wraps
it with the route's `catch` and records the upstream endpoints fetched. -/

/-- `GET /` (source lines 32-53). -/
def homeBody (up : Upstream) : Except String Response := do
  let homeData := apiCall up "/api/v1/home"
  let succ ← homeData.getField "success"
  if succ.truthy then
    let d ← homeData.getField "data"
    pure (.render 200 "home" [("data", d), ("title", .str "AnimeKai - Home")])
  else
    pure (errorRender "Failed to load home data")

def homeHandler (up : Upstream) : HandlerOut where
  response :=
    match homeBody up with
    | .ok r => r
    | .error _ => errorRender "Server error occurred"
  calls := ["/api/v1/home"]

/-- `GET /anime/:id` (source lines 56-78). -/
def animeBody (up : Upstream) (animeId : String) : Except String Response := do
  let animeData := apiCall up (animeDetailEP animeId)
  let succ ← animeData.getField "success"
  if succ.truthy then
    let d ← animeData.getField "data"
    let title ← d.getField "title"
    pure (.render 200 "anime-details"
      [("anime", d), ("title", .str (title.toDisplay ++ " - AnimeKai"))])
  else
    pure (errorRender "Anime not found")

def animeHandler (up : Upstream) (animeId : String) : HandlerOut where
  response :=
    match animeBody up animeId with
    | .ok r => r
    | .error _ => errorRender "Failed to load anime details"
  calls := [animeDetailEP animeId]

/-- `GET /anime/:id/episodes` (source lines 81-107). -/
def episodesBody (up : Upstream) (animeId : String) : Except String Response := do
  let animeData := apiCall up (animeDetailEP animeId)
  let episodesData := apiCall up (episodesEP animeId)
  let cond ← jsAndTruthy (animeData.getField "success")
      (fun _ => episodesData.getField "success")
  if cond then
    let aD ← animeData.getField "data"
    let eD ← episodesData.getField "data"
    let title ← aD.getField "title"
    pure (.render 200 "episodes"
      [("anime", aD), ("episodes", eD),
       ("title", .str (title.toDisplay ++ " Episodes - AnimeKai"))])
  else
    pure (errorRender "Failed to load episodes")

def episodesHandler (up : Upstream) (animeId : String) : HandlerOut where
  response :=
    match episodesBody up animeId with
    | .ok r => r
    | .error _ => errorRender "Failed to load episodes"
  calls := [animeDetailEP animeId, episodesEP animeId]

/-- `GET /watch/:animeId` (source lines 110-147). -/
def watchBody (up : Upstream) (animeId : String) (ep sv ty : Option String) :
    Except String Response := do
  let episodeParam := jsOrDefault ep "1"
  let serverParam := jsOrDefault sv "HD-1"
  let typeParam := jsOrDefault ty "sub"
  let serverId := serverKey animeId episodeParam
  let animeData := apiCall up (animeDetailEP (beforeQuery animeId))
  let serversData := apiCall up (serversEP serverId)
  let streamData := apiCall up (streamEP serverParam typeParam serverId)
  let succ ← animeData.getField "success"
  if succ.truthy then
    let aD ← animeData.getField "data"
    let sSucc ← serversData.getField "success"
    let servers ← if sSucc.truthy then serversData.getField "data" else pure .null
    let stSucc ← streamData.getField "success"
    let stream ← if stSucc.truthy then streamData.getField "data" else pure .null
    let title ← aD.getField "title"
    pure (.render 200 "watch"
      [("anime", aD), ("servers", servers), ("streamData", stream),
       ("currentEpisode", .str episodeParam), ("currentServer", .str serverParam),
       ("currentType", .str typeParam),
       ("title", .str ("Watch " ++ title.toDisplay ++ " Episode " ++
         episodeParam ++ " - AnimeKai"))])
  else
    pure (errorRender "Failed to load watch page")

def watchHandler (up : Upstream) (animeId : String) (ep sv ty : Option String) :
    HandlerOut where
  response :=
    match watchBody up animeId ep sv ty with
    | .ok r => r
    | .error _ => errorRender "Failed to load watch page"
  calls :=
    [animeDetailEP (beforeQuery animeId),
     serversEP (serverKey animeId (jsOrDefault ep "1")),
     streamEP (jsOrDefault sv "HD-1") (jsOrDefault ty "sub")
       (serverKey animeId (jsOrDefault ep "1"))]

/-- `GET /search` (source lines 150-178). -/
def searchBody (up : Upstream) (keywordQ pageQ : Option String) :
    Except String Response := do
  let keyword := jsOrDefault keywordQ ""
  let page := jsOrDefault pageQ "1"
  if keyword.isEmpty then
    pure (.render 200 "search"
      [("results", .null), ("keyword", .str ""),
       ("title", .str "Search - AnimeKai")])
  else
    let searchData := apiCall up (searchEP keyword page)
    let sSucc ← searchData.getField "success"
    let results ← if sSucc.truthy then searchData.getField "data" else pure .null
    pure (.render 200 "search"
      [("results", results), ("keyword", .str keyword),
       ("currentPage", parseIntJs page),
       ("title", .str ("Search: " ++ keyword ++ " - AnimeKai"))])

def searchHandler (up : Upstream) (keywordQ pageQ : Option String) :
    HandlerOut where
  response :=
    match searchBody up keywordQ pageQ with
    | .ok r => r
    | .error _ =>
      .render 200 "search"
        [("results", .null), ("keyword", .str (jsOrDefault keywordQ "")),
         ("title", .str "Search - AnimeKai")]
  calls :=
    if (jsOrDefault keywordQ "").isEmpty then []
    else [searchEP (jsOrDefault keywordQ "") (jsOrDefault pageQ "1")]

/-- `GET /browse/:query/:category?` (source lines 181-215). -/
def browseBody (up : Upstream) (query : String) (categoryP pageQ : Option String) :
    Except String Response := do
  let category := jsOrDefault categoryP ""
  let page := jsOrDefault pageQ "1"
  let browseData := apiCall up (browseEP query category page)
  let succ ← browseData.getField "success"
  if succ.truthy then
    let d ← browseData.getField "data"
    pure (.render 200 "browse"
      [("data", d), ("query", .str query), ("category", .str category),
       ("currentPage", parseIntJs page),
       ("title", .str ("Browse " ++ (replaceFirstDash query).toUpper ++
         " - AnimeKai"))])
  else
    pure (errorRender "Failed to load browse data")

def browseHandler (up : Upstream) (query : String)
    (categoryP pageQ : Option String) : HandlerOut where
  response :=
    match browseBody up query categoryP pageQ with
    | .ok r => r
    | .error _ => errorRender "Failed to load browse data"
  calls := [browseEP query (jsOrDefault categoryP "") (jsOrDefault pageQ "1")]

/-- `GET /api/suggestions` (source lines 220-232). -/
def suggestionsHandler (up : Upstream) (keywordQ : Option String) : HandlerOut :=
  if !truthyStr keywordQ then
    ⟨.json 200 (.obj [("success", .bool false), ("message", .str "Keyword required")]), []⟩
  else
    let kw := keywordQ.getD ""
    ⟨.json 200 (apiCall up (suggestionEP kw)), [suggestionEP kw]⟩

/-- `GET /api/servers` (source lines 235-247). -/
def serversHandler (up : Upstream) (idQ : Option String) : HandlerOut :=
  if !truthyStr idQ then
    ⟨.json 200 (.obj [("success", .bool false), ("message", .str "ID required")]), []⟩
  else
    let i := idQ.getD ""
    ⟨.json 200 (apiCall up (serversEP i)), [serversEP i]⟩

/-- `GET /api/stream` (source lines 250-262). -/
def streamHandler (up : Upstream) (idQ svQ tyQ : Option String) : HandlerOut :=
  if !truthyStr idQ || !truthyStr svQ || !truthyStr tyQ then
    ⟨.json 200 (.obj [("success", .bool false),
        ("message", .str "Missing required parameters")]), []⟩
  else
    let e := streamEP (svQ.getD "") (tyQ.getD "") (idQ.getD "")
    ⟨.json 200 (apiCall up e), [e]⟩

/-- The 404 middleware (source lines 265-270). -/
def notFoundResponse : Response :=
  .render 404 "error"
    [("message", .str "Page not found"), ("title", .str "404 - Not Found")]

/-- The top-level error middleware (source lines 273-279). -/
def errorMiddleware (_err : String) : Response :=
  .render 500 "error"
    [("message", .str "Something went wrong!"), ("title", .str "500 - Server Error")]

/-- Express route matching: the path, split into segments, against the
routes in registration order; `none` when no route matches. -/
def matchRoute (up : Upstream) (segments : List String)
    (q : String → Option String) : Option HandlerOut :=
  match segments with
  | [] => some (homeHandler up)
  | ["anime", id] => some (animeHandler up id)
  | ["anime", id, "episodes"] => some (episodesHandler up id)
  | ["watch", animeId] =>
    some (watchHandler up animeId (q "ep") (q "server") (q "type"))
  | ["search"] => some (searchHandler up (q "keyword") (q "page"))
  | ["browse", query] => some (browseHandler up query none (q "page"))
  | ["browse", query, cat] => some (browseHandler up query (some cat) (q "page"))
  | ["api", "suggestions"] => some (suggestionsHandler up (q "keyword"))
  | ["api", "servers"] => some (serversHandler up (q "id"))
  | ["api", "stream"] =>
    some (streamHandler up (q "id") (q "server") (q "type"))
  | _ => none

/-- The whole app: a matched route's handler, or the 404 middleware. -/
def app (up : Upstream) (segments : List String)
    (q : String → Option String) : HandlerOut :=
  match matchRoute up segments q with
  | some h => h
  | none => ⟨notFoundResponse, []⟩

/-! ### Shared lemmas -/

/-- The envelope invariant of the spec's data model: the `success` field is a
boolean, and `data` is a present (non-`null`, non-`undefined`) value whenever
`success` is `true`. -/
def Envelope (j : Json) : Prop :=
  (∃ b, j.fieldD "success" = Json.bool b) ∧
  (j.fieldD "success" = Json.bool true →
    j.fieldD "data" ≠ Json.undefined ∧ j.fieldD "data" ≠ Json.null)

theorem getField_ok (j : Json) (h1 : j ≠ Json.undefined) (h2 : j ≠ Json.null)
    (k : String) : j.getField k = .ok (j.fieldD k) := by
  cases j <;> simp_all [Json.getField]

theorem fieldD_bool_ne_nullish (j : Json) (k : String) (b : Bool)
    (h : j.fieldD k = Json.bool b) : j ≠ Json.undefined ∧ j ≠ Json.null := by
  cases j <;> simp_all [Json.fieldD]

theorem Envelope.getField_eq (j : Json) (h : Envelope j) (k : String) :
    j.getField k = .ok (j.fieldD k) := by
  obtain ⟨⟨b, hb⟩, _⟩ := h
  obtain ⟨h1, h2⟩ := fieldD_bool_ne_nullish j "success" b hb
  exact getField_ok j h1 h2 k

theorem Envelope.failEnvelope (msg : String) : Envelope (MovieBox.failEnvelope msg) := by
  refine ⟨⟨false, rfl⟩, fun h => ?_⟩
  simp [MovieBox.failEnvelope, Json.fieldD] at h

/-! ### Claims -/

/-- C1: the upstream client `apiCall` never propagates an exception: for
every endpoint, a transport or non-2xx failure is caught and turned into the
local envelope with `success` set to `false` and the error message, while an
HTTP success returns the upstream JSON body verbatim. -/
theorem apiCall_failure_envelope_or_verbatim (up : Upstream) (endpoint : String) :
    (∃ msg, up (API_BASE_URL ++ endpoint) = .fail msg ∧
      apiCall up endpoint =
        Json.obj [("success", Json.bool false), ("error", Json.str msg)]) ∨
    (∃ body, up (API_BASE_URL ++ endpoint) = .ok body ∧
      apiCall up endpoint = body) := by
  cases h : up (API_BASE_URL ++ endpoint) with
  | ok body => exact Or.inr ⟨body, rfl, by simp [apiCall, h]⟩
  | fail msg => exact Or.inl ⟨msg, rfl, by simp [apiCall, failEnvelope, h]⟩

/-- C4: `/search` with an absent or empty `keyword` renders the search
template with `results = null` and `keyword = ''` and fetches nothing. -/
theorem search_empty_keyword_no_upstream (up : Upstream) (pageQ : Option String) :
    (searchHandler up none pageQ).response =
      .render 200 "search"
        [("results", .null), ("keyword", .str ""),
         ("title", .str "Search - AnimeKai")] ∧
    (searchHandler up none pageQ).calls = [] ∧
    (searchHandler up (some "") pageQ).response =
      .render 200 "search"
        [("results", .null), ("keyword", .str ""),
         ("title", .str "Search - AnimeKai")] ∧
    (searchHandler up (some "") pageQ).calls = [] :=
  ⟨rfl, rfl, rfl, rfl⟩

/-- C5: `/api/suggestions`, `/api/servers` and `/api/stream` answer a local
`success:false` JSON body and fetch nothing when a required query parameter
is missing. -/
theorem api_routes_missing_param_local_error (up : Upstream)
    (idQ svQ tyQ a b c : Option String) :
    suggestionsHandler up none =
      ⟨.json 200 (.obj [("success", .bool false),
        ("message", .str "Keyword required")]), []⟩ ∧
    serversHandler up none =
      ⟨.json 200 (.obj [("success", .bool false),
        ("message", .str "ID required")]), []⟩ ∧
    streamHandler up none svQ tyQ =
      ⟨.json 200 (.obj [("success", .bool false),
        ("message", .str "Missing required parameters")]), []⟩ ∧
    streamHandler up idQ none c =
      ⟨.json 200 (.obj [("success", .bool false),
        ("message", .str "Missing required parameters")]), []⟩ ∧
    streamHandler up a b none =
      ⟨.json 200 (.obj [("success", .bool false),
        ("message", .str "Missing required parameters")]), []⟩ := by
  refine ⟨rfl, rfl, rfl, ?_, ?_⟩
  · cases h : truthyStr idQ <;> simp [streamHandler, truthyStr, h]
  · cases h1 : truthyStr a <;> cases h2 : truthyStr b <;>
      simp [streamHandler, truthyStr, h1, h2]

/-- C2: `/anime/:id/episodes` renders the episodes view iff both the
anime-detail call and the episode-list call return `success:true`; otherwise
the generic error template is rendered.  (The upstream bodies are assumed to
satisfy the spec's envelope invariant.) -/
theorem episodes_render_iff_both_success (up : Upstream) (animeId : String)
    (ha : Envelope (apiCall up (animeDetailEP animeId)))
    (he : Envelope (apiCall up (episodesEP animeId))) :
    ((episodesHandler up animeId).response.template = some "episodes" ↔
      ((apiCall up (animeDetailEP animeId)).fieldD "success" = Json.bool true ∧
       (apiCall up (episodesEP animeId)).fieldD "success" = Json.bool true)) ∧
    ((episodesHandler up animeId).response.template = some "error" ↔
      ¬((apiCall up (animeDetailEP animeId)).fieldD "success" = Json.bool true ∧
        (apiCall up (episodesEP animeId)).fieldD "success" = Json.bool true)) := by
  have hgA := Envelope.getField_eq _ ha
  have hgE := Envelope.getField_eq _ he
  obtain ⟨⟨ba, hba⟩, ha2⟩ := ha
  obtain ⟨⟨be, hbe⟩, he2⟩ := he
  cases ba with
  | false =>
    simp [episodesHandler, episodesBody, jsAndTruthy, hgA, hgE, hba, hbe,
      Json.truthy, Response.template, errorRender, bind, Except.bind,
      pure, Except.pure]
  | true =>
    cases be with
    | false =>
      simp [episodesHandler, episodesBody, jsAndTruthy, hgA, hgE, hba, hbe,
        Json.truthy, Response.template, errorRender, bind, Except.bind,
        pure, Except.pure, Except.map]
    | true =>
      obtain ⟨h1, h2⟩ := ha2 hba
      have hTitle := getField_ok _ h1 h2 "title"
      simp [episodesHandler, episodesBody, jsAndTruthy, hgA, hgE, hba, hbe,
        Json.truthy, Response.template, hTitle, bind, Except.bind,
        pure, Except.pure, Except.map]

def upEpisodesGood : Upstream := fun _ =>
  .ok (.obj [("success", .bool true), ("data", .obj [("title", .str "X")])])

theorem episodes_render_iff_both_success_witness :
    Envelope (apiCall upEpisodesGood (animeDetailEP "7")) ∧
    Envelope (apiCall upEpisodesGood (episodesEP "7")) ∧
    (((episodesHandler upEpisodesGood "7").response.template = some "episodes" ↔
      ((apiCall upEpisodesGood (animeDetailEP "7")).fieldD "success" = Json.bool true ∧
       (apiCall upEpisodesGood (episodesEP "7")).fieldD "success" = Json.bool true)) ∧
     ((episodesHandler upEpisodesGood "7").response.template = some "error" ↔
      ¬((apiCall upEpisodesGood (animeDetailEP "7")).fieldD "success" = Json.bool true ∧
        (apiCall upEpisodesGood (episodesEP "7")).fieldD "success" = Json.bool true))) := by
  have ha : Envelope (apiCall upEpisodesGood (animeDetailEP "7")) :=
    ⟨⟨true, rfl⟩, fun _ => ⟨fun h => Json.noConfusion h, fun h => Json.noConfusion h⟩⟩
  have he : Envelope (apiCall upEpisodesGood (episodesEP "7")) :=
    ⟨⟨true, rfl⟩, fun _ => ⟨fun h => Json.noConfusion h, fun h => Json.noConfusion h⟩⟩
  exact ⟨ha, he, episodes_render_iff_both_success upEpisodesGood "7" ha he⟩

/-- Explicit form of the watch render when the anime-detail call reports
success (helper for the watch-route claims). -/
theorem watchHandler_watch_render (up : Upstream) (animeId : String)
    (ep sv ty : Option String) (bs bt : Bool)
    (hsucc : (apiCall up (animeDetailEP (beforeQuery animeId))).fieldD "success" =
      Json.bool true)
    (h1 : (apiCall up (animeDetailEP (beforeQuery animeId))).fieldD "data" ≠ Json.undefined)
    (h2 : (apiCall up (animeDetailEP (beforeQuery animeId))).fieldD "data" ≠ Json.null)
    (hbs : (apiCall up (serversEP (serverKey animeId (jsOrDefault ep "1")))).fieldD
      "success" = Json.bool bs)
    (hbt : (apiCall up (streamEP (jsOrDefault sv "HD-1") (jsOrDefault ty "sub")
      (serverKey animeId (jsOrDefault ep "1")))).fieldD "success" = Json.bool bt) :
    (watchHandler up animeId ep sv ty).response = .render 200 "watch"
      [("anime", (apiCall up (animeDetailEP (beforeQuery animeId))).fieldD "data"),
       ("servers",
         if bs then
           (apiCall up (serversEP (serverKey animeId (jsOrDefault ep "1")))).fieldD "data"
         else Json.null),
       ("streamData",
         if bt then
           (apiCall up (streamEP (jsOrDefault sv "HD-1") (jsOrDefault ty "sub")
             (serverKey animeId (jsOrDefault ep "1")))).fieldD "data"
         else Json.null),
       ("currentEpisode", .str (jsOrDefault ep "1")),
       ("currentServer", .str (jsOrDefault sv "HD-1")),
       ("currentType", .str (jsOrDefault ty "sub")),
       ("title", .str ("Watch " ++
         (((apiCall up (animeDetailEP (beforeQuery animeId))).fieldD
           "data").fieldD "title").toDisplay ++
         " Episode " ++ jsOrDefault ep "1" ++ " - AnimeKai"))] := by
  have hgA := getField_ok _ (fieldD_bool_ne_nullish _ _ _ hsucc).1
    (fieldD_bool_ne_nullish _ _ _ hsucc).2
  have hgS := getField_ok _ (fieldD_bool_ne_nullish _ _ _ hbs).1
    (fieldD_bool_ne_nullish _ _ _ hbs).2
  have hgSt := getField_ok _ (fieldD_bool_ne_nullish _ _ _ hbt).1
    (fieldD_bool_ne_nullish _ _ _ hbt).2
  have hTitle := getField_ok _ h1 h2 "title"
  cases bs <;> cases bt <;>
    simp [watchHandler, watchBody, jsAndTruthy, hgA, hgS, hgSt, hsucc, hbs, hbt,
      Json.truthy, hTitle, bind, Except.bind, pure, Except.pure, Except.map]

/-- C3: `/watch/:animeId` renders the watch view whenever the anime-detail
call succeeds, whatever the servers and stream calls produced, and in the
rendered context `servers` (resp. `streamData`) is `null` exactly when the
server-list (resp. stream) call did not succeed.  (The upstream bodies are
assumed to satisfy the spec's envelope invariant.) -/
theorem watch_renders_despite_secondary_failures (up : Upstream)
    (animeId : String) (ep sv ty : Option String)
    (ha : Envelope (apiCall up (animeDetailEP (beforeQuery animeId))))
    (hs : Envelope (apiCall up (serversEP (serverKey animeId (jsOrDefault ep "1")))))
    (hst : Envelope (apiCall up (streamEP (jsOrDefault sv "HD-1")
      (jsOrDefault ty "sub") (serverKey animeId (jsOrDefault ep "1")))))
    (hsucc : (apiCall up (animeDetailEP (beforeQuery animeId))).fieldD "success" =
      Json.bool true) :
    ∃ ctx, (watchHandler up animeId ep sv ty).response = .render 200 "watch" ctx ∧
      (lookupCtx ctx "servers" = some Json.null ↔
        ¬ (apiCall up (serversEP (serverKey animeId (jsOrDefault ep "1")))).fieldD
            "success" = Json.bool true) ∧
      (lookupCtx ctx "streamData" = some Json.null ↔
        ¬ (apiCall up (streamEP (jsOrDefault sv "HD-1") (jsOrDefault ty "sub")
            (serverKey animeId (jsOrDefault ep "1")))).fieldD
            "success" = Json.bool true) := by
  obtain ⟨h1, h2⟩ := ha.2 hsucc
  obtain ⟨⟨bs, hbs⟩, hs2⟩ := hs
  obtain ⟨⟨bt, hbt⟩, hst2⟩ := hst
  refine ⟨_, watchHandler_watch_render up animeId ep sv ty bs bt hsucc h1 h2 hbs hbt,
    ?_, ?_⟩
  · cases bs with
    | false => simp [lookupCtx, hbs]
    | true => simp [lookupCtx, hbs, (hs2 hbs).2]
  · cases bt with
    | false => simp [lookupCtx, hbt]
    | true => simp [lookupCtx, hbt, (hst2 hbt).2]

/-- An upstream body satisfying the envelope invariant, used as a witness. -/
def goodBody : Json :=
  .obj [("success", .bool true), ("data", .obj [("title", .str "X")])]

theorem Envelope_goodBody : Envelope goodBody :=
  ⟨⟨true, rfl⟩, fun _ => ⟨fun h => Json.noConfusion h, fun h => Json.noConfusion h⟩⟩

/-- An upstream on which the server-list call fails and everything else
succeeds with a well-formed body. -/
def upWatchMixed : Upstream := fun url =>
  if url = API_BASE_URL ++ serversEP (serverKey "42" "1") then .fail "boom"
  else .ok goodBody

theorem watch_renders_despite_secondary_failures_witness :
    Envelope (apiCall upWatchMixed (animeDetailEP (beforeQuery "42"))) ∧
    Envelope (apiCall upWatchMixed (serversEP (serverKey "42" (jsOrDefault none "1")))) ∧
    Envelope (apiCall upWatchMixed (streamEP (jsOrDefault none "HD-1")
      (jsOrDefault none "sub") (serverKey "42" (jsOrDefault none "1")))) ∧
    (apiCall upWatchMixed (animeDetailEP (beforeQuery "42"))).fieldD "success" =
      Json.bool true ∧
    (∃ ctx, (watchHandler upWatchMixed "42" none none none).response =
        .render 200 "watch" ctx ∧
      (lookupCtx ctx "servers" = some Json.null ↔
        ¬ (apiCall upWatchMixed (serversEP (serverKey "42" (jsOrDefault none "1")))).fieldD
            "success" = Json.bool true) ∧
      (lookupCtx ctx "streamData" = some Json.null ↔
        ¬ (apiCall upWatchMixed (streamEP (jsOrDefault none "HD-1")
            (jsOrDefault none "sub") (serverKey "42" (jsOrDefault none "1")))).fieldD
            "success" = Json.bool true)) := by
  have ha : Envelope (apiCall upWatchMixed (animeDetailEP (beforeQuery "42"))) :=
    Envelope_goodBody
  have hs : Envelope (apiCall upWatchMixed
      (serversEP (serverKey "42" (jsOrDefault none "1")))) :=
    Envelope.failEnvelope "boom"
  have hst : Envelope (apiCall upWatchMixed (streamEP (jsOrDefault none "HD-1")
      (jsOrDefault none "sub") (serverKey "42" (jsOrDefault none "1")))) :=
    Envelope_goodBody
  have hsucc : (apiCall upWatchMixed (animeDetailEP (beforeQuery "42"))).fieldD
      "success" = Json.bool true := rfl
  exact ⟨ha, hs, hst, hsucc,
    watch_renders_despite_secondary_failures upWatchMixed "42" none none none
      ha hs hst hsucc⟩

/-- An upstream that is unreachable: every request fails in transport. -/
def upDown : Upstream := fun _ => .fail "ENOTFOUND"

/-- C6 (counterexample): with the upstream unreachable, `/search` with a
nonempty keyword renders the `search` template — not the generic `error`
template the claim requires of every HTML route. -/
theorem search_error_template_counterexample :
    (searchHandler upDown (some "naruto") none).response.template = some "search" ∧
    (searchHandler upDown (some "naruto") none).response.template ≠ some "error" :=
  ⟨rfl, by decide⟩

/-- C6 (amended): when every upstream call reports `success:false`, the HTML
routes other than `/search` render the generic error template, `/search`
renders the search template with `results = null`, and the JSON routes answer
a `success:false` JSON body; no route faults. -/
theorem upstream_failure_responses (up : Upstream)
    (hfail : ∀ e, (apiCall up e).fieldD "success" = Json.bool false)
    (aId eId wId : String) (ep sv ty : Option String)
    (bq : String) (bc bp kwQ pgQ kq iq sq1 sq2 sq3 : Option String) :
    (homeHandler up).response.template = some "error" ∧
    (animeHandler up aId).response.template = some "error" ∧
    (episodesHandler up eId).response.template = some "error" ∧
    (watchHandler up wId ep sv ty).response.template = some "error" ∧
    (browseHandler up bq bc bp).response.template = some "error" ∧
    (∃ ctx, (searchHandler up kwQ pgQ).response = .render 200 "search" ctx ∧
      lookupCtx ctx "results" = some Json.null) ∧
    (∃ b, (suggestionsHandler up kq).response = .json 200 b ∧
      b.fieldD "success" = Json.bool false) ∧
    (∃ b, (serversHandler up iq).response = .json 200 b ∧
      b.fieldD "success" = Json.bool false) ∧
    (∃ b, (streamHandler up sq1 sq2 sq3).response = .json 200 b ∧
      b.fieldD "success" = Json.bool false) := by
  have hg : ∀ e k, (apiCall up e).getField k = .ok ((apiCall up e).fieldD k) :=
    fun e k => getField_ok _ (fieldD_bool_ne_nullish _ _ _ (hfail e)).1
      (fieldD_bool_ne_nullish _ _ _ (hfail e)).2 k
  refine ⟨?_, ?_, ?_, ?_, ?_, ?_, ?_, ?_, ?_⟩
  · simp [homeHandler, homeBody, hg, hfail, Json.truthy, errorRender,
      Response.template, bind, Except.bind, pure, Except.pure]
  · simp [animeHandler, animeBody, hg, hfail, Json.truthy, errorRender,
      Response.template, bind, Except.bind, pure, Except.pure]
  · simp [episodesHandler, episodesBody, jsAndTruthy, hg, hfail, Json.truthy,
      errorRender, Response.template, bind, Except.bind, pure, Except.pure]
  · simp [watchHandler, watchBody, hg, hfail, Json.truthy, errorRender,
      Response.template, bind, Except.bind, pure, Except.pure]
  · simp [browseHandler, browseBody, hg, hfail, Json.truthy, errorRender,
      Response.template, bind, Except.bind, pure, Except.pure]
  · cases hk : (jsOrDefault kwQ "").isEmpty with
    | true =>
      refine ⟨[("results", Json.null), ("keyword", Json.str ""),
        ("title", Json.str "Search - AnimeKai")], ?_, rfl⟩
      simp [searchHandler, searchBody, hk, bind, Except.bind, pure, Except.pure]
    | false =>
      refine ⟨[("results", Json.null), ("keyword", Json.str (jsOrDefault kwQ "")),
        ("currentPage", parseIntJs (jsOrDefault pgQ "1")),
        ("title", Json.str ("Search: " ++ jsOrDefault kwQ "" ++ " - AnimeKai"))],
        ?_, rfl⟩
      simp [searchHandler, searchBody, hk, hg, hfail, Json.truthy,
        bind, Except.bind, pure, Except.pure]
  · cases hk : truthyStr kq with
    | false =>
      refine ⟨Json.obj [("success", .bool false),
        ("message", .str "Keyword required")], ?_, rfl⟩
      simp [suggestionsHandler, hk]
    | true =>
      refine ⟨apiCall up (suggestionEP (kq.getD "")), ?_, hfail _⟩
      simp [suggestionsHandler, hk]
  · cases hk : truthyStr iq with
    | false =>
      refine ⟨Json.obj [("success", .bool false),
        ("message", .str "ID required")], ?_, rfl⟩
      simp [serversHandler, hk]
    | true =>
      refine ⟨apiCall up (serversEP (iq.getD "")), ?_, hfail _⟩
      simp [serversHandler, hk]
  · cases hc : (!truthyStr sq1 || !truthyStr sq2 || !truthyStr sq3) with
    | true =>
      refine ⟨Json.obj [("success", .bool false),
        ("message", .str "Missing required parameters")], ?_, rfl⟩
      simp [streamHandler, hc]
    | false =>
      refine ⟨apiCall up (streamEP (sq2.getD "") (sq3.getD "") (sq1.getD "")), ?_,
        hfail _⟩
      simp [streamHandler, hc]

theorem upstream_failure_responses_witness :
    (∀ e, (apiCall upDown e).fieldD "success" = Json.bool false) ∧
    ((homeHandler upDown).response.template = some "error" ∧
     (animeHandler upDown "1").response.template = some "error" ∧
     (episodesHandler upDown "2").response.template = some "error" ∧
     (watchHandler upDown "3" none none none).response.template = some "error" ∧
     (browseHandler upDown "tv" none none).response.template = some "error" ∧
     (∃ ctx, (searchHandler upDown (some "k") none).response =
        .render 200 "search" ctx ∧ lookupCtx ctx "results" = some Json.null) ∧
     (∃ b, (suggestionsHandler upDown (some "k")).response = .json 200 b ∧
       b.fieldD "success" = Json.bool false) ∧
     (∃ b, (serversHandler upDown (some "i")).response = .json 200 b ∧
       b.fieldD "success" = Json.bool false) ∧
     (∃ b, (streamHandler upDown none none none).response = .json 200 b ∧
       b.fieldD "success" = Json.bool false)) :=
  ⟨fun _ => rfl,
   upstream_failure_responses upDown (fun _ => rfl) "1" "2" "3" none none none
     "tv" none none (some "k") none (some "k") (some "i") none none none⟩

/-- An upstream whose 2xx responses carry the JSON body `null`. -/
def upNull : Upstream := fun _ => .ok Json.null

theorem beforeQuery_eq_self (s : String) (h : '?' ∉ s.toList) :
    beforeQuery s = s := by
  have key : ∀ l : List Char, '?' ∉ l → l.takeWhile (fun c => c ≠ '?') = l := by
    intro l hl
    induction l with
    | nil => rfl
    | cons c r ih =>
      have hc : ¬ c = '?' := by
        intro hc
        subst hc
        exact hl (List.mem_cons_self _ _)
      have hr : '?' ∉ r := fun hm => hl (List.mem_cons_of_mem c hm)
      simp [List.takeWhile_cons, hc]
      intro x hx hxq
      subst hxq
      exact hr hx
  show String.mk (s.toList.takeWhile fun c => c ≠ '?') = s
  rw [key s.toList h]
  rfl

/-- C7 (counterexample): an exception IS thrown inside the watch route
handler (property access on a `null` upstream body), yet the response is the
route's own catch render with HTTP status 200, not the claimed 500. -/
theorem handler_exception_status_counterexample :
    watchBody upNull "42" none none none =
      .error "TypeError: Cannot read properties of null (reading success)" ∧
    (watchHandler upNull "42" none none none).response =
      errorRender "Failed to load watch page" ∧
    (watchHandler upNull "42" none none none).response.status = 200 ∧
    (watchHandler upNull "42" none none none).response.status ≠ 500 :=
  ⟨rfl, rfl, rfl, by decide⟩

/-- C7 (amended): an unmatched path gets the generic error render with
status 404; an exception thrown inside a route handler is caught by the
route's own try/catch and yields that route's error render with status 200;
the 500-status error render is produced by the top-level error middleware
for exceptions that escape handlers. -/
theorem unmatched_404_and_handler_catch (up : Upstream) (segs : List String)
    (q : String → Option String) (animeId : String) (ep sv ty : Option String)
    (msg : String)
    (hmatch : matchRoute up segs q = none)
    (hthrow : watchBody up animeId ep sv ty = .error msg) :
    (app up segs q).response = notFoundResponse ∧
    notFoundResponse.status = 404 ∧
    notFoundResponse.template = some "error" ∧
    (watchHandler up animeId ep sv ty).response =
      errorRender "Failed to load watch page" ∧
    (watchHandler up animeId ep sv ty).response.status = 200 ∧
    (errorMiddleware msg).status = 500 ∧
    (errorMiddleware msg).template = some "error" := by
  refine ⟨?_, rfl, rfl, ?_, ?_, rfl, rfl⟩
  · simp [app, hmatch]
  · simp [watchHandler, hthrow]
  · simp [watchHandler, hthrow, errorRender, Response.status]

theorem unmatched_404_and_handler_catch_witness :
    matchRoute upNull ["definitely", "not", "a", "route"] (fun _ => none) = none ∧
    watchBody upNull "42" none none none =
      .error "TypeError: Cannot read properties of null (reading success)" ∧
    ((app upNull ["definitely", "not", "a", "route"] (fun _ => none)).response =
      notFoundResponse ∧
     notFoundResponse.status = 404 ∧
     notFoundResponse.template = some "error" ∧
     (watchHandler upNull "42" none none none).response =
       errorRender "Failed to load watch page" ∧
     (watchHandler upNull "42" none none none).response.status = 200 ∧
     (errorMiddleware "TypeError: Cannot read properties of null (reading success)").status = 500 ∧
     (errorMiddleware "TypeError: Cannot read properties of null (reading success)").template = some "error") :=
  ⟨rfl, rfl,
   unmatched_404_and_handler_catch upNull ["definitely", "not", "a", "route"]
     (fun _ => none) "42" none none none
     "TypeError: Cannot read properties of null (reading success)" rfl rfl⟩

/-- C8 (counterexample): for an animeId that contains `?`, the anime-detail
call is NOT addressed by the anime id — the id is truncated at the `?`. -/
theorem watch_anime_call_truncation_counterexample :
    (watchHandler upDown "a?b" none none none).calls.headD "" = "/api/v1/anime/a" ∧
    (watchHandler upDown "a?b" none none none).calls.headD "" ≠
      "/api/v1/anime/a?b" :=
  ⟨rfl, by decide⟩

/-- C8 (amended): on `/watch/:animeId`, `ep` defaults to `"1"`, `server` to
`"HD-1"` and `type` to `"sub"`; exactly three upstream calls are issued, the
servers and stream calls addressed by the composite key
`animeId::ep=episode`, and the anime-detail call addressed by the portion of
the anime id before the first `?` — equal to the anime id itself whenever it
contains no `?`. -/
theorem watch_defaults_and_three_calls (up : Upstream) (animeId : String)
    (ep sv ty : Option String) (h : '?' ∉ animeId.toList) :
    (watchHandler up animeId ep sv ty).calls =
      ["/api/v1/anime/" ++ animeId,
       "/api/v1/servers?id=" ++ (animeId ++ "::ep=" ++ jsOrDefault ep "1"),
       "/api/v1/stream?server=" ++ jsOrDefault sv "HD-1" ++ "&type=" ++
         jsOrDefault ty "sub" ++ "&id=" ++ (animeId ++ "::ep=" ++ jsOrDefault ep "1")] ∧
    (watchHandler up animeId ep sv ty).calls.length = 3 ∧
    jsOrDefault none "1" = "1" ∧ jsOrDefault none "HD-1" = "HD-1" ∧
    jsOrDefault none "sub" = "sub" := by
  have hb := beforeQuery_eq_self animeId h
  refine ⟨?_, rfl, rfl, rfl, rfl⟩
  simp [watchHandler, animeDetailEP, serversEP, streamEP, serverKey, hb]

theorem watch_defaults_and_three_calls_witness :
    '?' ∉ ("42" : String).toList ∧
    ((watchHandler upDown "42" (some "3") none none).calls =
      ["/api/v1/anime/" ++ "42",
       "/api/v1/servers?id=" ++ ("42" ++ "::ep=" ++ jsOrDefault (some "3") "1"),
       "/api/v1/stream?server=" ++ jsOrDefault none "HD-1" ++ "&type=" ++
         jsOrDefault none "sub" ++ "&id=" ++ ("42" ++ "::ep=" ++ jsOrDefault (some "3") "1")] ∧
     (watchHandler upDown "42" (some "3") none none).calls.length = 3 ∧
     jsOrDefault none "1" = "1" ∧ jsOrDefault none "HD-1" = "HD-1" ∧
     jsOrDefault none "sub" = "sub") :=
  ⟨by decide,
   watch_defaults_and_three_calls upDown "42" (some "3") none none (by decide)⟩

/-- C10: the watch route's anime-detail call uses only the part of `animeId`
before the first `?`, while the composite key used by the servers and stream
calls is built from the full, unstripped `animeId`; for every `animeId`
containing no `?`, the two agree. -/
theorem watch_split_stripping (up : Upstream) (animeId : String)
    (ep sv ty : Option String) :
    (watchHandler up animeId ep sv ty).calls.headD "" =
      "/api/v1/anime/" ++ beforeQuery animeId ∧
    (watchHandler up animeId ep sv ty).calls.getD 1 "" =
      "/api/v1/servers?id=" ++ (animeId ++ "::ep=" ++ jsOrDefault ep "1") ∧
    (watchHandler up animeId ep sv ty).calls.getD 2 "" =
      "/api/v1/stream?server=" ++ jsOrDefault sv "HD-1" ++ "&type=" ++
        jsOrDefault ty "sub" ++ "&id=" ++ (animeId ++ "::ep=" ++ jsOrDefault ep "1") ∧
    ('?' ∉ animeId.toList → beforeQuery animeId = animeId) := by
  refine ⟨?_, ?_, ?_, beforeQuery_eq_self animeId⟩
  all_goals
    simp [watchHandler, animeDetailEP, serversEP, streamEP, serverKey,
      List.headD, List.getD]

theorem watch_split_stripping_witness :
    (watchHandler upDown "42" (some "3") none none).calls.headD "" =
      "/api/v1/anime/" ++ beforeQuery "42" ∧
    (watchHandler upDown "42" (some "3") none none).calls.getD 1 "" =
      "/api/v1/servers?id=" ++ ("42" ++ "::ep=" ++ jsOrDefault (some "3") "1") ∧
    (watchHandler upDown "42" (some "3") none none).calls.getD 2 "" =
      "/api/v1/stream?server=" ++ jsOrDefault none "HD-1" ++ "&type=" ++
        jsOrDefault none "sub" ++ "&id=" ++ ("42" ++ "::ep=" ++ jsOrDefault (some "3") "1") ∧
    beforeQuery "42" = "42" := by
  have t := watch_split_stripping upDown "42" (some "3") none none
  exact ⟨t.1, t.2.1, t.2.2.1, t.2.2.2 (by decide)⟩

/-- C9: keyword values are percent-encoded (`encodeURIComponent`) before
interpolation into upstream paths, while identifiers and all other
parameters are interpolated raw. -/
theorem keyword_encoded_identifiers_raw (up : Upstream)
    (kw pg i sv ty aid q c : String)
    (hkw : kw.isEmpty = false) (hpg : pg.isEmpty = false)
    (hi : i.isEmpty = false) (hsv : sv.isEmpty = false)
    (hty : ty.isEmpty = false) (hc : c.isEmpty = false) :
    (searchHandler up (some kw) (some pg)).calls =
      ["/api/v1/search?keyword=" ++ encodeURIComponent kw ++ "&page=" ++ pg] ∧
    (suggestionsHandler up (some kw)).calls =
      ["/api/v1/search/suggestion?keyword=" ++ encodeURIComponent kw] ∧
    (serversHandler up (some i)).calls = ["/api/v1/servers?id=" ++ i] ∧
    (streamHandler up (some i) (some sv) (some ty)).calls =
      ["/api/v1/stream?server=" ++ sv ++ "&type=" ++ ty ++ "&id=" ++ i] ∧
    (animeHandler up aid).calls = ["/api/v1/anime/" ++ aid] ∧
    (episodesHandler up aid).calls =
      ["/api/v1/anime/" ++ aid, "/api/v1/episodes/" ++ aid] ∧
    (browseHandler up q (some c) (some pg)).calls =
      ["/api/v1/animes/" ++ q ++ "/" ++ c ++ "?page=" ++ pg] := by
  refine ⟨?_, ?_, ?_, ?_, rfl, rfl, ?_⟩
  · simp [searchHandler, jsOrDefault, hkw, hpg, searchEP]
  · simp [suggestionsHandler, truthyStr, hkw, suggestionEP]
  · simp [serversHandler, truthyStr, hi, serversEP]
  · simp [streamHandler, truthyStr, hi, hsv, hty, streamEP]
  · simp [browseHandler, jsOrDefault, hc, hpg, browseEP]

theorem keyword_encoded_identifiers_raw_witness :
    ("dragon ball".isEmpty = false ∧ "2".isEmpty = false ∧
     "42::ep=3".isEmpty = false ∧ "HD-2".isEmpty = false ∧
     "dub".isEmpty = false ∧ "ona".isEmpty = false) ∧
    ((searchHandler upDown (some "dragon ball") (some "2")).calls =
      ["/api/v1/search?keyword=" ++ encodeURIComponent "dragon ball" ++
        "&page=" ++ "2"] ∧
     (suggestionsHandler upDown (some "dragon ball")).calls =
      ["/api/v1/search/suggestion?keyword=" ++ encodeURIComponent "dragon ball"] ∧
     (serversHandler upDown (some "42::ep=3")).calls =
      ["/api/v1/servers?id=" ++ "42::ep=3"] ∧
     (streamHandler upDown (some "42::ep=3") (some "HD-2") (some "dub")).calls =
      ["/api/v1/stream?server=" ++ "HD-2" ++ "&type=" ++ "dub" ++
        "&id=" ++ "42::ep=3"] ∧
     (animeHandler upDown "7").calls = ["/api/v1/anime/" ++ "7"] ∧
     (episodesHandler upDown "7").calls =
      ["/api/v1/anime/" ++ "7", "/api/v1/episodes/" ++ "7"] ∧
     (browseHandler upDown "tv" (some "ona") (some "2")).calls =
      ["/api/v1/animes/" ++ "tv" ++ "/" ++ "ona" ++ "?page=" ++ "2"]) ∧
    encodeURIComponent "dragon ball" = "dragon%20ball" :=
  ⟨⟨rfl, rfl, rfl, rfl, rfl, rfl⟩,
   keyword_encoded_identifiers_raw upDown "dragon ball" "2" "42::ep=3" "HD-2"
     "dub" "7" "tv" "ona" rfl rfl rfl rfl rfl rfl,
   rfl⟩

end MovieBox
